import Mathlib

/-!
Verification of the QuackView analysis-to-SQL compiler
(`src/app/generator/sql_generator.py`, `src/app/utils/utils.py`).

The Python code is shallowly embedded: dictionaries become association
lists, the `AnalysisType` enum becomes an inductive type, string
formatting becomes string concatenation, and the `ValueError` raised by
`_build_select_clause` becomes an `Except String` result.  All
definitions are executable with structural recursion so that concrete
inputs evaluate by `rfl` or `decide`.
-/

/-- The single-quote character as a string (used when the WHERE builder
wraps string values). -/
def squote : String := "\x27"

/-- Characters of a string before the first occurrence of a separator
character; models the Python idiom split(sep)[0]. -/
def takeUntilChar (c : Char) (s : String) : String :=
  String.mk (s.data.takeWhile (fun d => d ≠ c))

/-- Lower-case every character; executable model of str.lower(). -/
def toLowerStr (s : String) : String :=
  String.mk (s.data.map Char.toLower)

/-- Upper-case every character; executable model of str.upper(). -/
def toUpperStr (s : String) : String :=
  String.mk (s.data.map Char.toUpper)

/-- Fuel-driven replace-all on character lists.  The fuel is set to the
length of the subject list, which is enough because each step consumes
at least one character when the pattern is non-empty. -/
def replaceList (pat rep : List Char) : Nat → List Char → List Char
  | _, [] => []
  | 0, l => l
  | Nat.succ n, c :: cs =>
    if pat ≠ [] ∧ pat.isPrefixOf (c :: cs) then
      rep ++ replaceList pat rep n (List.drop pat.length (c :: cs))
    else
      c :: replaceList pat rep n cs

/-- Replace every occurrence of a pattern; executable model of the
Python str.replace used by the generator. -/
def strReplace (s pat rep : String) : String :=
  String.mk (replaceList pat.data rep.data s.data.length s.data)

/-- True when the pattern is a contiguous sublist at some position. -/
def containsSubList (pat : List Char) : List Char → Bool
  | [] => pat.isPrefixOf []
  | c :: cs => pat.isPrefixOf (c :: cs) || containsSubList pat cs

/-- True when the pattern occurs as a contiguous substring; models the
Python in operator on strings. -/
def strContainsSub (s pat : String) : Bool :=
  containsSubList pat.data s.data

/-- Join a list of strings with a separator; executable model of
str.join as used to assemble the final SQL text. -/
def strJoinSep (sep : String) : List String → String
  | [] => ""
  | [x] => x
  | x :: xs => x ++ sep ++ strJoinSep sep xs

/-- The numeric type keywords of utils.duckdb_numeric_types. -/
def duckdbNumericTypes : List String :=
  ["bigint", "dec", "decimal", "double", "float", "float4", "float8",
   "hugeint", "int", "int1", "int128", "int16", "int2", "int32", "int4",
   "int64", "int8", "integer", "integral", "long", "numeric", "real",
   "short", "signed", "smallint", "tinyint", "ubigint", "uhugeint",
   "uint128", "uint16", "uint32", "uint64", "uint8", "uinteger",
   "usmallint", "utinyint", "varint"]

/-- The text type keywords of utils.duckdb_text_types. -/
def duckdbTextTypes : List String :=
  ["bpchar", "char", "nvarchar", "string", "text", "varchar"]

/-- The temporal type keywords of utils.duckdb_time_types. -/
def duckdbTimeTypes : List String :=
  ["date", "datetime", "time", "timestamp", "timestamp_ms",
   "timestamp_ns", "timestamp_s", "timestamp_us", "timestamptz",
   "timetz", "interval"]

/-- utils.is_duckdb_numeric_type: strips a parenthesized suffix,
lower-cases, and tests membership in the numeric keyword set. -/
def isDuckdbNumericType (columnType : String) : Bool :=
  duckdbNumericTypes.contains (toLowerStr (takeUntilChar '(' columnType))

/-- utils.is_duckdb_text_type: exact membership test on the raw string,
with no suffix stripping and no lower-casing. -/
def isDuckdbTextType (columnType : String) : Bool :=
  duckdbTextTypes.contains columnType

/-- utils.is_duckdb_time_type: exact membership test on the raw string,
with no suffix stripping and no lower-casing. -/
def isDuckdbTimeType (columnType : String) : Bool :=
  duckdbTimeTypes.contains columnType

/-- The AnalysisType enum of sql_generator.py. -/
inductive AnalysisType where
  | avg | max | min | sum | varPop | stddevPop | count | median
  | quartiles | percentiles
  | distinctCount | topK | valueDistribution | lengthAnalysis
  | patternAnalysis
  | dateRange | yearAnalysis | monthAnalysis | dayAnalysis | hourAnalysis
  | weekdayAnalysis | seasonalAnalysis
  | missingValues | dataQuality | correlation
deriving DecidableEq, Repr

/-- The string value carried by each AnalysisType enum member. -/
def analysisValue : AnalysisType → String
  | .avg => "avg"
  | .max => "max"
  | .min => "min"
  | .sum => "sum"
  | .varPop => "var_pop"
  | .stddevPop => "stddev_pop"
  | .count => "count"
  | .median => "median"
  | .quartiles => "quartiles"
  | .percentiles => "percentiles"
  | .distinctCount => "distinct_count"
  | .topK => "top_k"
  | .valueDistribution => "value_distribution"
  | .lengthAnalysis => "length_analysis"
  | .patternAnalysis => "pattern_analysis"
  | .dateRange => "date_range"
  | .yearAnalysis => "year_analysis"
  | .monthAnalysis => "month_analysis"
  | .dayAnalysis => "day_analysis"
  | .hourAnalysis => "hour_analysis"
  | .weekdayAnalysis => "weekday_analysis"
  | .seasonalAnalysis => "seasonal_analysis"
  | .missingValues => "missing_values"
  | .dataQuality => "data_quality"
  | .correlation => "correlation"

/-- The 4-way CASE expression of the SEASONAL_ANALYSIS template.  The
source repeats this text verbatim in the SELECT template and in the
GROUP BY branch, so it is shared here. -/
def seasonCaseExpr (c : String) : String :=
  s!"CASE WHEN EXTRACT(MONTH FROM {c}) IN (12, 1, 2) THEN {squote}Winter{squote} WHEN EXTRACT(MONTH FROM {c}) IN (3, 4, 5) THEN {squote}Spring{squote} WHEN EXTRACT(MONTH FROM {c}) IN (6, 7, 8) THEN {squote}Summer{squote} ELSE {squote}Fall{squote} END"

/-- The SQL_TEMPLATES dictionary: each enum member maps to a SELECT
fragment template with the column substituted in.  Every member has an
entry, so every lookup yields some template. -/
def sqlTemplates : AnalysisType → Option (String → String)
  | .avg => some (fun c => s!"SELECT AVG({c}) as avg_{c}")
  | .max => some (fun c => s!"SELECT MAX({c}) as max_{c}")
  | .min => some (fun c => s!"SELECT MIN({c}) as min_{c}")
  | .sum => some (fun c => s!"SELECT SUM({c}) as sum_{c}")
  | .varPop => some (fun c => s!"SELECT VAR_POP({c}) as var_pop_{c}")
  | .stddevPop => some (fun c => s!"SELECT STDDEV_POP({c}) as stddev_pop_{c}")
  | .count => some (fun c => s!"SELECT COUNT({c}) as count_{c}")
  | .median => some (fun c => s!"SELECT PERCENTILE_CONT(0.5) WITHIN GROUP (ORDER BY {c}) as median_{c}")
  | .quartiles => some (fun c => s!"SELECT PERCENTILE_CONT(0.25) WITHIN GROUP (ORDER BY {c}) as q1_{c}, PERCENTILE_CONT(0.5) WITHIN GROUP (ORDER BY {c}) as q2_{c}, PERCENTILE_CONT(0.75) WITHIN GROUP (ORDER BY {c}) as q3_{c}")
  | .percentiles => some (fun c => s!"SELECT PERCENTILE_CONT(0.1) WITHIN GROUP (ORDER BY {c}) as p10_{c}, PERCENTILE_CONT(0.25) WITHIN GROUP (ORDER BY {c}) as p25_{c}, PERCENTILE_CONT(0.5) WITHIN GROUP (ORDER BY {c}) as p50_{c}, PERCENTILE_CONT(0.75) WITHIN GROUP (ORDER BY {c}) as p75_{c}, PERCENTILE_CONT(0.9) WITHIN GROUP (ORDER BY {c}) as p90_{c}")
  | .distinctCount => some (fun c => s!"SELECT COUNT(DISTINCT {c}) as distinct_count_{c}")
  | .topK => some (fun c => s!"SELECT {c}, COUNT(*) as count")
  | .valueDistribution => some (fun c => s!"SELECT {c}, COUNT(*) as count")
  | .lengthAnalysis => some (fun c => s!"SELECT LENGTH({c}) as length, COUNT(*) as count")
  | .patternAnalysis => some (fun c => s!"SELECT {c}, COUNT(*) as count")
  | .dateRange => some (fun c => s!"SELECT MIN({c}) as min_date, MAX({c}) as max_date")
  | .yearAnalysis => some (fun c => s!"SELECT EXTRACT(YEAR FROM {c}) as year, COUNT(*) as count")
  | .monthAnalysis => some (fun c => s!"SELECT EXTRACT(MONTH FROM {c}) as month, COUNT(*) as count")
  | .dayAnalysis => some (fun c => s!"SELECT EXTRACT(DAY FROM {c}) as day, COUNT(*) as count")
  | .hourAnalysis => some (fun c => s!"SELECT EXTRACT(HOUR FROM {c}) as hour, COUNT(*) as count")
  | .weekdayAnalysis => some (fun c => s!"SELECT EXTRACT(DOW FROM {c}) as weekday, COUNT(*) as count")
  | .seasonalAnalysis => some (fun c => s!"SELECT {seasonCaseExpr c} as season, COUNT(*) as count")
  | .missingValues => some (fun c => s!"SELECT COUNT(*) as total_count, COUNT({c}) as non_null_count, COUNT(*) - COUNT({c}) as null_count")
  | .dataQuality => some (fun c => s!"SELECT COUNT(*) as total_count, COUNT({c}) as non_null_count, COUNT(DISTINCT {c}) as distinct_count")
  | .correlation => some (fun c => s!"SELECT CORR({c}, {c}) as correlation")

/-- SQLGenerator.get_available_analysis_types: the per-category
capability lists, keyed by the column type looked up in the column
type map; an unknown column yields the empty list. -/
def getAvailableAnalysisTypes (columnTypes : List (String × String))
    (columnName : String) : List AnalysisType :=
  match columnTypes.lookup columnName with
  | none => []
  | some columnType =>
    if isDuckdbNumericType columnType then
      [.avg, .max, .min, .sum, .varPop, .stddevPop, .count, .median,
       .quartiles, .percentiles]
    else if isDuckdbTextType columnType then
      [.count, .distinctCount, .topK, .valueDistribution,
       .lengthAnalysis, .patternAnalysis]
    else if isDuckdbTimeType columnType then
      [.count, .dateRange, .yearAnalysis, .monthAnalysis, .dayAnalysis,
       .hourAnalysis, .weekdayAnalysis, .seasonalAnalysis]
    else
      [.count, .missingValues, .dataQuality]

/-- SQLGenerator._build_select_clause: look up the template, raising
ValueError (modelled as Except.error) when the analysis type has no
template, and substitute the column name. -/
def buildSelectClause (columnName : String) (analysisType : AnalysisType) :
    Except String String :=
  match sqlTemplates analysisType with
  | none => Except.error ("Unsupported analysis type: " ++ analysisValue analysisType)
  | some tmpl => Except.ok (tmpl columnName)

/-- A scalar filter value: the Python code distinguishes string values
(which get single-quote wrapped) from other scalars (rendered as-is). -/
inductive Scalar where
  | int (n : Int)
  | str (s : String)
deriving DecidableEq, Repr

/-- One value of the where_conditions dictionary: a (operator, value)
2-tuple, a raw condition string such as "> 30", or a bare non-string
scalar that is rendered as an equality. -/
inductive FilterCond where
  | tup (op : String) (val : Scalar)
  | raw (cond : String)
  | num (n : Int)
deriving DecidableEq, Repr

/-- Rendering of one filter entry by SQLGenerator._build_where_clause:
a 2-tuple renders column op value with string values single-quote
wrapped; a raw string renders column followed by the string; any other
scalar renders as an equality. -/
def renderCond (col : String) : FilterCond → String
  | .tup op (.str v) => col ++ " " ++ op ++ " " ++ squote ++ v ++ squote
  | .tup op (.int v) => col ++ " " ++ op ++ " " ++ toString v
  | .raw c => col ++ " " ++ c
  | .num v => col ++ " = " ++ toString v

/-- SQLGenerator._build_where_clause: empty input gives the empty
clause; otherwise the rendered conditions are joined with AND in
request order behind the WHERE keyword. -/
def buildWhereClause (conds : List (String × FilterCond)) : String :=
  if conds.isEmpty then ""
  else "WHERE " ++ strJoinSep " AND " (conds.map (fun p => renderCond p.1 p.2))

/-- SQLGenerator._build_group_by_clause. -/
def buildGroupByClause (groupByCols : List String) : String :=
  if groupByCols.isEmpty then ""
  else "GROUP BY " ++ strJoinSep ", " groupByCols

/-- SQLGenerator._build_order_by_clause: the four frequency operations
and the six temporal bucketing operations all get ORDER BY count DESC;
everything else gets no implicit ORDER BY. -/
def buildOrderByClause (_columnName : String) (t : AnalysisType) : String :=
  if t ∈ [AnalysisType.topK, AnalysisType.valueDistribution,
          AnalysisType.lengthAnalysis, AnalysisType.patternAnalysis] then
    "ORDER BY count DESC"
  else if t ∈ [AnalysisType.yearAnalysis, AnalysisType.monthAnalysis,
               AnalysisType.dayAnalysis, AnalysisType.hourAnalysis,
               AnalysisType.weekdayAnalysis, AnalysisType.seasonalAnalysis] then
    "ORDER BY count DESC"
  else ""

/-- SQLGenerator._build_limit_clause: an explicit limit wins; otherwise
TOP_K and the three other frequency operations use the top-k value;
otherwise no LIMIT clause.  Temporal bucketing operations fall through
to the empty clause. -/
def buildLimitClause (limit : Option Int) (t : AnalysisType) (topKVal : Int) :
    String :=
  match limit with
  | some n => "LIMIT " ++ toString n
  | none =>
    if t = AnalysisType.topK then "LIMIT " ++ toString topKVal
    else if t ∈ [AnalysisType.valueDistribution, AnalysisType.lengthAnalysis,
                 AnalysisType.patternAnalysis] then
      "LIMIT " ++ toString topKVal
    else ""

/-- The ten intrinsically-grouping operations, listed twice verbatim in
generate_sql (once for the NULL guard, once for the GROUP BY branch). -/
def groupedOps : List AnalysisType :=
  [.topK, .valueDistribution, .lengthAnalysis, .patternAnalysis,
   .yearAnalysis, .monthAnalysis, .dayAnalysis, .hourAnalysis,
   .weekdayAnalysis, .seasonalAnalysis]

/-- The WHERE clause after the implicit NULL-guard injection of
generate_sql: for intrinsically-grouping operations the guard on the
analyzed column is appended with AND after the caller filters, or forms
the whole clause when there are no caller filters. -/
def whereWithNullGuard (t : AnalysisType) (columnName : String)
    (conds : List (String × FilterCond)) : String :=
  let whereClause := buildWhereClause conds
  if t ∈ groupedOps then
    if whereClause ≠ "" then
      whereClause ++ " AND " ++ columnName ++ " IS NOT NULL"
    else
      "WHERE " ++ columnName ++ " IS NOT NULL"
  else whereClause

/-- The GROUP BY clause chosen by generate_sql: intrinsically-grouping
operations group by their own bucketing expression (ignoring any
explicit group-by columns); otherwise the explicit group-by columns are
used when present. -/
def groupByClauseFor (t : AnalysisType) (columnName : String)
    (groupByCols : List String) : String :=
  if t ∈ groupedOps then
    if t = AnalysisType.lengthAnalysis then
      "GROUP BY LENGTH(" ++ columnName ++ ")"
    else if t = AnalysisType.seasonalAnalysis then
      "GROUP BY " ++ seasonCaseExpr columnName
    else if t ∈ [AnalysisType.yearAnalysis, AnalysisType.monthAnalysis,
                 AnalysisType.dayAnalysis, AnalysisType.hourAnalysis] then
      "GROUP BY EXTRACT(" ++
        toUpperStr (strReplace (analysisValue t) "_analysis" "") ++
        " FROM " ++ columnName ++ ")"
    else if t = AnalysisType.weekdayAnalysis then
      "GROUP BY EXTRACT(DOW FROM " ++ columnName ++ ")"
    else
      "GROUP BY " ++ columnName
  else if ¬ groupByCols.isEmpty then buildGroupByClause groupByCols
  else ""

/-- The SELECT clause merge of generate_sql when explicit group-by
columns are present: the group-by columns are listed first, then the
base select fragment with its leading SELECT keyword stripped. -/
def mergeGroupBySelect (baseSelect : String) (groupByCols : List String) :
    String :=
  let groupBySel := strJoinSep ", " groupByCols
  if strContainsSub baseSelect "SELECT" then
    "SELECT " ++ groupBySel ++ ", " ++ strReplace baseSelect "SELECT " ""
  else
    "SELECT " ++ groupBySel ++ ", " ++ baseSelect

/-- SQLGenerator._generate_correlation_sql: SELECT CORR of the two
columns, with a WHERE clause guarding both columns IS NOT NULL, ANDed
after any caller filters. -/
def generateCorrelationSql (tableName column1 column2 : String)
    (conds : List (String × FilterCond)) : String :=
  let selectClause := "SELECT CORR(" ++ column1 ++ ", " ++ column2 ++ ") as correlation"
  let fromClause := "FROM " ++ tableName
  let whereClause := buildWhereClause conds
  let whereClause :=
    if whereClause ≠ "" then
      whereClause ++ " AND " ++ column1 ++ " IS NOT NULL AND " ++ column2 ++ " IS NOT NULL"
    else
      "WHERE " ++ column1 ++ " IS NOT NULL AND " ++ column2 ++ " IS NOT NULL"
  selectClause ++ " " ++ fromClause ++ " " ++ whereClause

/-- SQLGenerator.generate_sql.  The correlation special case fires when
the analysis type is correlation and the second column is truthy (a
present, non-empty string).  Otherwise the SELECT template is resolved
(the only failure point), the clauses are built, and the non-empty
parts are joined with single spaces. -/
def generateSqlE (tableName columnName : String) (t : AnalysisType)
    (groupByCols : List String) (conds : List (String × FilterCond))
    (limit : Option Int) (topKVal : Int) (secondColumn : Option String) :
    Except String String :=
  if t = AnalysisType.correlation ∧ secondColumn.getD "" ≠ "" then
    Except.ok (generateCorrelationSql tableName columnName
      (secondColumn.getD "") conds)
  else
    match buildSelectClause columnName t with
    | Except.error e => Except.error e
    | Except.ok baseSelect =>
      let selectClause :=
        if ¬ groupByCols.isEmpty then mergeGroupBySelect baseSelect groupByCols
        else baseSelect
      let fromClause := "FROM " ++ tableName
      let whereClause := whereWithNullGuard t columnName conds
      let groupByClause := groupByClauseFor t columnName groupByCols
      let orderByClause := buildOrderByClause columnName t
      let limitClause := buildLimitClause limit t topKVal
      let sqlParts := [selectClause, fromClause]
        ++ (if whereClause ≠ "" then [whereClause] else [])
        ++ (if groupByClause ≠ "" then [groupByClause] else [])
        ++ (if orderByClause ≠ "" then [orderByClause] else [])
        ++ (if limitClause ≠ "" then [limitClause] else [])
      Except.ok (strJoinSep " " sqlParts)

/-- The select-fragment loop of generate_multi_column_sql: build each
SELECT fragment and strip its SELECT keyword, propagating the first
template failure. -/
def buildSelectParts : List (String × AnalysisType) → Except String (List String)
  | [] => Except.ok []
  | (c, t) :: rest =>
    match buildSelectClause c t with
    | Except.error e => Except.error e
    | Except.ok s =>
      match buildSelectParts rest with
      | Except.error e => Except.error e
      | Except.ok ss => Except.ok (strReplace s "SELECT " "" :: ss)

/-- generate_multi_column_sql: the per-operation fragments are joined
into one SELECT list (after any explicit group-by columns), sharing one
FROM, WHERE and GROUP BY; no grouping-shape validation is performed. -/
def generateMultiColumnSql (tableName : String)
    (analysisConfig : List (String × AnalysisType))
    (groupByCols : List String) (conds : List (String × FilterCond)) :
    Except String String :=
  match buildSelectParts analysisConfig with
  | Except.error e => Except.error e
  | Except.ok selectParts =>
    let selectClause :=
      if ¬ groupByCols.isEmpty then
        "SELECT " ++ strJoinSep ", " groupByCols ++ ", " ++
          strJoinSep ", " selectParts
      else
        "SELECT " ++ strJoinSep ", " selectParts
    let fromClause := "FROM " ++ tableName
    let whereClause := buildWhereClause conds
    let groupByClause := buildGroupByClause groupByCols
    let sqlParts := [selectClause, fromClause]
      ++ (if whereClause ≠ "" then [whereClause] else [])
      ++ (if groupByClause ≠ "" then [groupByClause] else [])
    Except.ok (strJoinSep " " sqlParts)

example : strReplace "SELECT AVG(a) as x" "SELECT " "" = "AVG(a) as x" := by decide
example : strContainsSub "SELECT a" "SELECT" = true := by decide
example : toUpperStr (strReplace "year_analysis" "_analysis" "") = "YEAR" := by decide
example : strJoinSep " " ["a", "b", "c"] = "a b c" := by decide

/-- Every analysis type has a SELECT template, so the select builder
never fails. -/
theorem buildSelectClause_isOk (col : String) (t : AnalysisType) :
    ∃ s, buildSelectClause col t = Except.ok s := by
  cases t <;> exact ⟨_, rfl⟩

/-- The select-fragment loop of the multi-column generator never fails,
because every analysis type has a template. -/
theorem buildSelectParts_isOk (cfg : List (String × AnalysisType)) :
    ∃ l, buildSelectParts cfg = Except.ok l := by
  induction cfg with
  | nil => exact ⟨_, rfl⟩
  | cons p rest ih =>
    obtain ⟨c, t⟩ := p
    obtain ⟨l, hl⟩ := ih
    obtain ⟨s, hs⟩ := buildSelectClause_isOk c t
    exact ⟨strReplace s "SELECT " "" :: l, by simp [buildSelectParts, hs, hl]⟩

/-- C1, counterexample: the avg operation is not in the capability set
of the TEXT column name, yet compilation succeeds and returns a SQL
string rather than failing with any error. -/
theorem c1_unsupported_pair_compiles :
    AnalysisType.avg ∉ getAvailableAnalysisTypes [("name", "varchar")] "name" ∧
    generateSqlE "test_table" "name" AnalysisType.avg [] [] none 10 none =
      Except.ok "SELECT AVG(name) as avg_name FROM test_table" := by
  exact ⟨by decide, by rfl⟩

/-- C1, amended: compilation never consults the capability set; for
every column, analysis type and clause inputs, generate_sql succeeds
and returns a SQL string. -/
theorem c1_compilation_never_fails (tableName columnName : String)
    (t : AnalysisType) (groupByCols : List String)
    (conds : List (String × FilterCond)) (limit : Option Int)
    (topKVal : Int) (secondColumn : Option String) :
    ∃ s, generateSqlE tableName columnName t groupByCols conds limit
      topKVal secondColumn = Except.ok s := by
  by_cases h : (t = AnalysisType.correlation ∧ secondColumn.getD "" ≠ "")
  · exact ⟨_, by rw [generateSqlE, if_pos h]⟩
  · obtain ⟨s, hs⟩ := buildSelectClause_isOk columnName t
    rw [generateSqlE, if_neg h, hs]
    exact ⟨_, rfl⟩

/-- C10: a column name absent from the column type map yields the empty
capability list; the lookup is total and cannot raise. -/
theorem c10_unknown_column_empty (columnTypes : List (String × String))
    (columnName : String) (h : columnTypes.lookup columnName = none) :
    getAvailableAnalysisTypes columnTypes columnName = [] := by
  simp [getAvailableAnalysisTypes, h]

/-- C10 witness at the empty column type map. -/
theorem c10_witness : getAvailableAnalysisTypes [] "missing" = [] :=
  c10_unknown_column_empty [] "missing" rfl

/-- C6, counterexample: the text classifier is neither suffix-stripping
nor case-insensitive, so varchar(255) and VARCHAR both fail to classify
as TEXT, contradicting the claim. -/
theorem c6_text_not_stripped :
    isDuckdbTextType "varchar(255)" = false ∧
    isDuckdbTextType "VARCHAR" = false := by
  exact ⟨by decide, by decide⟩

/-- C6, amended: only the numeric classifier strips a parenthesized
suffix and lower-cases; the text and temporal classifiers are exact
membership tests on the raw string.  So decimal(10,2) and DECIMAL(10,2)
classify NUMERIC, while varchar(255) and VARCHAR do not classify TEXT
and TIMESTAMP does not classify TEMPORAL. -/
theorem c6_classification_mechanism :
    isDuckdbNumericType "decimal(10,2)" = true ∧
    isDuckdbNumericType "DECIMAL(10,2)" = true ∧
    isDuckdbTextType "varchar" = true ∧
    isDuckdbTextType "varchar(255)" = false ∧
    isDuckdbTimeType "timestamp" = true ∧
    isDuckdbTimeType "TIMESTAMP" = false := by
  refine ⟨by decide, by decide, by decide, by decide, by decide, by decide⟩

/-- C7, counterexample: missing_values is not available for a NUMERIC
column and data_quality is not available for a TEXT column, although
the claim says both are available for NUMERIC, TEXT and TEMPORAL. -/
theorem c7_general_ops_not_everywhere :
    AnalysisType.missingValues ∉ getAvailableAnalysisTypes [("age", "int")] "age" ∧
    AnalysisType.dataQuality ∉ getAvailableAnalysisTypes [("name", "varchar")] "name" := by
  exact ⟨by decide, by decide⟩

/-- C7, amended: missing_values and data_quality appear in the
capability list exactly when the column type matches none of the three
keyword sets (the OTHER category), and a json column exposes exactly
count, missing_values and data_quality. -/
theorem c7_capability_partition (columnTypes : List (String × String))
    (columnName columnType : String)
    (h : columnTypes.lookup columnName = some columnType) :
    (AnalysisType.missingValues ∈ getAvailableAnalysisTypes columnTypes columnName ↔
      isDuckdbNumericType columnType = false ∧
      isDuckdbTextType columnType = false ∧
      isDuckdbTimeType columnType = false) ∧
    (AnalysisType.dataQuality ∈ getAvailableAnalysisTypes columnTypes columnName ↔
      isDuckdbNumericType columnType = false ∧
      isDuckdbTextType columnType = false ∧
      isDuckdbTimeType columnType = false) ∧
    (columnType = "json" →
      getAvailableAnalysisTypes columnTypes columnName =
        [AnalysisType.count, AnalysisType.missingValues, AnalysisType.dataQuality]) := by
  by_cases h1 : isDuckdbNumericType columnType <;>
    by_cases h2 : isDuckdbTextType columnType <;>
      by_cases h3 : isDuckdbTimeType columnType <;>
        refine ⟨?_, ?_, ?_⟩ <;>
          simp [getAvailableAnalysisTypes, h, h1, h2, h3] <;>
            first
              | decide
              | (intro hty; subst hty; revert h1; decide)
              | (intro hty; subst hty; revert h2; decide)
              | (intro hty; subst hty; revert h3; decide)

/-- C7 witness: the json column of the amended claim. -/
theorem c7_witness :
    getAvailableAnalysisTypes [("j", "json")] "j" =
      [AnalysisType.count, AnalysisType.missingValues, AnalysisType.dataQuality] :=
  (c7_capability_partition [("j", "json")] "j" "json" rfl).2.2 rfl

/-- C2, evaluation at the failing input: compiling top_k on column name
with explicit group-by column category puts category, name into the
SELECT list but groups only by name, so the GROUP BY expression list is
not the non-aggregate portion of the SELECT clause and the statement is
malformed. -/
theorem c2_group_by_pairing_broken :
    generateSqlE "test_table" "name" AnalysisType.topK ["category"] [] none 10 none =
      Except.ok "SELECT category, name, COUNT(*) as count FROM test_table WHERE name IS NOT NULL GROUP BY name ORDER BY count DESC LIMIT 10" ∧
    groupByClauseFor AnalysisType.topK "name" ["category"] = "GROUP BY name" ∧
    "GROUP BY name" ≠ "GROUP BY category, name" := by
  exact ⟨by rfl, by rfl, by decide⟩

/-- C3, counterexample: a temporal bucketing operation with no explicit
limit produces no LIMIT clause at all, although the claim says the topK
value should produce LIMIT 7 there. -/
theorem c3_temporal_no_limit :
    generateSqlE "t" "d" AnalysisType.yearAnalysis [] [] none 7 none =
      Except.ok "SELECT EXTRACT(YEAR FROM d) as year, COUNT(*) as count FROM t WHERE d IS NOT NULL GROUP BY EXTRACT(YEAR FROM d) ORDER BY count DESC" ∧
    buildLimitClause none AnalysisType.yearAnalysis 7 = "" ∧
    strContainsSub "SELECT EXTRACT(YEAR FROM d) as year, COUNT(*) as count FROM t WHERE d IS NOT NULL GROUP BY EXTRACT(YEAR FROM d) ORDER BY count DESC" "LIMIT" = false := by
  exact ⟨by rfl, by rfl, by decide⟩

/-- C3, amended: the LIMIT precedence chain is: an explicit limit
always wins; otherwise the topK value applies exactly for top_k,
value_distribution, length_analysis and pattern_analysis; every other
operation, including the temporal bucketing operations, gets no LIMIT
clause.  Exactly one branch applies. -/
theorem c3_limit_precedence :
    (∀ (limit : Option Int) (t : AnalysisType) (k : Int),
      buildLimitClause limit t k =
        match limit with
        | some n => "LIMIT " ++ toString n
        | none =>
          if t ∈ [AnalysisType.topK, AnalysisType.valueDistribution,
                  AnalysisType.lengthAnalysis, AnalysisType.patternAnalysis] then
            "LIMIT " ++ toString k
          else "") ∧
    buildLimitClause (some 3) AnalysisType.topK 7 = "LIMIT 3" ∧
    buildLimitClause none AnalysisType.topK 7 = "LIMIT 7" := by
  refine ⟨?_, by rfl, by rfl⟩
  intro limit t k
  cases limit with
  | some n => rfl
  | none => cases t <;> rfl

/-- C4: for every intrinsically-grouping operation the implicit NULL
guard on the analyzed column is ANDed after the caller filters, or
forms the whole WHERE clause when there are no filters; instantiated on
the two spec examples for value_distribution on region. -/
theorem c4_null_guard (t : AnalysisType) (h : t ∈ groupedOps) :
    (∀ (columnName : String) (conds : List (String × FilterCond)),
      whereWithNullGuard t columnName conds =
        if buildWhereClause conds = "" then
          "WHERE " ++ columnName ++ " IS NOT NULL"
        else
          buildWhereClause conds ++ " AND " ++ columnName ++ " IS NOT NULL") ∧
    generateSqlE "t" "region" AnalysisType.valueDistribution [] [] none 10 none =
      Except.ok "SELECT region, COUNT(*) as count FROM t WHERE region IS NOT NULL GROUP BY region ORDER BY count DESC LIMIT 10" ∧
    generateSqlE "t" "region" AnalysisType.valueDistribution []
        [("age", FilterCond.tup ">" (Scalar.int 30))] none 10 none =
      Except.ok "SELECT region, COUNT(*) as count FROM t WHERE age > 30 AND region IS NOT NULL GROUP BY region ORDER BY count DESC LIMIT 10" := by
  refine ⟨?_, by rfl, by rfl⟩
  intro columnName conds
  rw [whereWithNullGuard]
  simp only [if_pos h]
  by_cases hw : buildWhereClause conds = "" <;> simp [hw]

/-- C4 witness: the no-filter spec example obtained from the theorem at
the value_distribution operation. -/
theorem c4_witness :
    generateSqlE "t" "region" AnalysisType.valueDistribution [] [] none 10 none =
      Except.ok "SELECT region, COUNT(*) as count FROM t WHERE region IS NOT NULL GROUP BY region ORDER BY count DESC LIMIT 10" :=
  (c4_null_guard AnalysisType.valueDistribution (by decide)).2.1

/-- C5: a string-valued (operator, value) filter renders with the value
single-quote wrapped, a non-string scalar renders unquoted, and two
filters are joined with AND in request order; checked concretely on
age > 30 together with region = east. -/
theorem c5_where_rendering :
    (∀ (col op v : String),
      renderCond col (FilterCond.tup op (Scalar.str v)) =
        col ++ " " ++ op ++ " " ++ squote ++ v ++ squote) ∧
    (∀ (col op : String) (n : Int),
      renderCond col (FilterCond.tup op (Scalar.int n)) =
        col ++ " " ++ op ++ " " ++ toString n) ∧
    (∀ (c1 : String) (f1 : FilterCond) (c2 : String) (f2 : FilterCond),
      buildWhereClause [(c1, f1), (c2, f2)] =
        "WHERE " ++ (renderCond c1 f1 ++ " AND " ++ renderCond c2 f2)) ∧
    buildWhereClause [("age", FilterCond.tup ">" (Scalar.int 30)),
                      ("region", FilterCond.tup "=" (Scalar.str "east"))] =
      "WHERE age > 30 AND region = \x27east\x27" := by
  refine ⟨fun col op v => rfl, fun col op n => rfl, fun c1 f1 c2 f2 => rfl, by decide⟩

/-- C8, counterexample: a correlation request with no second column
does not fail; it compiles to CORR of the primary column with itself. -/
theorem c8_missing_second_column_compiles :
    generateSqlE "t" "price" AnalysisType.correlation [] [] none 10 none =
      Except.ok "SELECT CORR(price, price) as correlation FROM t" := by
  rfl

/-- C8, amended: correlation with a present non-empty second column
takes the dedicated path, emitting CORR of the two columns with a WHERE
guarding both columns IS NOT NULL ANDed after the caller filters; with
no second column compilation still succeeds via the generic template. -/
theorem c8_correlation_second_column (c2 : String) (h : c2 ≠ "") :
    (∀ (tableName c1 : String) (groupByCols : List String)
       (conds : List (String × FilterCond)) (limit : Option Int) (k : Int),
      generateSqlE tableName c1 AnalysisType.correlation groupByCols conds
          limit k (some c2) =
        Except.ok (generateCorrelationSql tableName c1 c2 conds)) ∧
    generateSqlE "t" "price" AnalysisType.correlation [] [] none 10 (some "rating") =
      Except.ok "SELECT CORR(price, rating) as correlation FROM t WHERE price IS NOT NULL AND rating IS NOT NULL" ∧
    generateSqlE "t" "price" AnalysisType.correlation []
        [("age", FilterCond.tup ">" (Scalar.int 30))] none 10 (some "rating") =
      Except.ok "SELECT CORR(price, rating) as correlation FROM t WHERE age > 30 AND price IS NOT NULL AND rating IS NOT NULL" := by
  refine ⟨?_, by rfl, by rfl⟩
  intro tableName c1 groupByCols conds limit k
  rw [generateSqlE, if_pos ⟨rfl, h⟩]
  rfl

/-- C8 witness: the spec example price with rating obtained from the
theorem. -/
theorem c8_witness :
    generateSqlE "t" "price" AnalysisType.correlation [] [] none 10 (some "rating") =
      Except.ok (generateCorrelationSql "t" "price" "rating" []) :=
  (c8_correlation_second_column "rating" (by decide)).1 "t" "price" [] [] none 10

/-- C9, counterexample: a multi-operation request mixing the grouping
operation top_k with the scalar aggregate avg compiles successfully
instead of failing with IncompatibleCompositionError. -/
theorem c9_mixed_composition_compiles :
    generateMultiColumnSql "t" [("name", AnalysisType.topK), ("age", AnalysisType.avg)] [] [] =
      Except.ok "SELECT name, COUNT(*) as count, AVG(age) as avg_age FROM t" := by
  rfl

/-- C9, amended: generate_multi_column_sql performs no grouping-shape
validation at all; every multi-operation request compiles to a SQL
string, whatever mix of grouping and non-grouping operations it
contains. -/
theorem c9_multi_never_fails (tableName : String)
    (analysisConfig : List (String × AnalysisType))
    (groupByCols : List String) (conds : List (String × FilterCond)) :
    ∃ s, generateMultiColumnSql tableName analysisConfig groupByCols conds =
      Except.ok s := by
  obtain ⟨l, hl⟩ := buildSelectParts_isOk analysisConfig
  rw [generateMultiColumnSql, hl]
  exact ⟨_, rfl⟩
